import Mathlib

/-!
Shallow embedding of `siig_switch.cpp` (jmgao/siig_switch).

The program drives a USB KVM switch through libusb.  The libusb transport is
modelled as an oracle: every libusb call's return code is a field of a `World`
or `Transport` record, and every externally observable libusb side effect
(device reference counting, opening and closing handles, kernel-driver
detach/attach, interface claiming, control transfers, diagnostics) is recorded
as an `Event` in a trace.  Each C++ function becomes a Lean function returning
its result together with the trace of events it performs; C++ `throw` becomes
`Except.error`.
-/

namespace SiigSwitch

/-- `kvm_device::vendor_id` in the source. -/
def vendor_id : Nat := 0x2101

/-- `kvm_device::product_id` in the source. -/
def product_id : Nat := 0x1406

/-- One attached USB device as seen by the enumeration: its identity `id`, the
return code `descRc` that `libusb_get_device_descriptor` would report for it,
and the vendor/product identifier fields that call leaves in the descriptor
structure (present whether or not the call succeeded, as in C where the struct
fields always hold some value). -/
structure DeviceEntry where
  id : Nat
  descRc : Int
  idVendor : Nat
  idProduct : Nat
deriving DecidableEq

/-- The diagnostic messages the program prints to stderr, one constructor per
`fprintf` call site, carrying exactly the data interpolated at that site. -/
inductive LogMsg where
  | openFailed
  | kernelDriverActiveFailed
  | claimFailed
  | writeFailed
  | shortWrite (wrote : Int) (expected : Nat)
  | noDevice
  | multipleDevices
  | configDescriptorFailed (rc : Int)
  | unexpectedInterfaces (n : Nat)
  | unexpectedAltsettings (n : Int)
  | libusbInitFailed
  | libusbError (rc : Int)
deriving DecidableEq

/-- Observable libusb side effects, in the order the program performs them. -/
inductive Event where
  | refDevice (d : Nat)
  | unrefDevice (d : Nat)
  | freeDeviceList
  | openDevice (d : Nat)
  | closeHandle
  | detachKernelDriver
  | attachKernelDriver
  | claimInterface
  | controlTransfer (requestType bRequest wValue wIndex : Nat) (payload : List Nat)
  | freeConfigDescriptor
  | libusbExit
  | log (m : LogMsg)
deriving DecidableEq

/-- The vendor/product match test from the loop body of `find_devices`:
`descriptor.idVendor == vendor_id && descriptor.idProduct == product_id`.
Note it reads only the descriptor fields, never `descRc`. -/
def matchesIds (v p : Nat) (d : DeviceEntry) : Bool :=
  d.idVendor == v && d.idProduct == p

/-- The `for` loop of `find_devices`: walk the enumerated devices in order;
each match is reference-counted (`libusb_ref_device`) and appended. -/
def scanDevices (v p : Nat) : List DeviceEntry → List DeviceEntry × List Event
  | [] => ([], [])
  | d :: rest =>
    let r := scanDevices v p rest
    if matchesIds v p d then (d :: r.1, Event.refDevice d.id :: r.2) else r

/-- `find_devices(ctx, vendor_id, product_id)`.  The enumeration oracle is
`Except Int (List DeviceEntry)`: `.error n` models `libusb_get_device_list`
returning the negative count `n` (the code then does `throw device_count`
before touching any device), `.ok devs` models it returning `devs.length`
devices.  After a successful scan the snapshot is released
(`libusb_free_device_list(devices, 1)`). -/
def find_devices (enum : Except Int (List DeviceEntry)) (v p : Nat) :
    Except Int (List DeviceEntry) × List Event :=
  match enum with
  | .error n => (.error n, [])
  | .ok devs =>
    let r := scanDevices v p devs
    (.ok r.1, r.2 ++ [Event.freeDeviceList])

/-- `libusb_interface_descriptor`: only `bInterfaceNumber` is read. -/
structure InterfaceDescriptor where
  bInterfaceNumber : Nat
deriving DecidableEq

/-- `libusb_interface`: `num_altsetting` (a C `int`) and the altsetting
array, modelled as a total function as C array indexing is. -/
structure UsbInterface where
  num_altsetting : Int
  altsetting : Nat → InterfaceDescriptor

/-- `libusb_config_descriptor`: `bNumInterfaces` and the interface array,
again a total function. -/
structure ConfigDescriptor where
  bNumInterfaces : Nat
  interface : Nat → UsbInterface

/-- Return codes the libusb transport oracle hands to one acquisition
attempt: `libusb_open`, `libusb_kernel_driver_active`,
`libusb_detach_kernel_driver`, `libusb_claim_interface`, and the byte counts
reported by `libusb_control_transfer` for the init and trigger requests. -/
structure Transport where
  openRc : Int
  kernelDriverActiveRc : Int
  detachRc : Int
  claimRc : Int
  initTransferRc : Int
  triggerTransferRc : Int
deriving DecidableEq

/-- The fields of a successfully constructed `kvm_device`. -/
structure Session where
  device : Nat
  interface_number : Nat
  detached_kernel : Bool
deriving DecidableEq

/-- `LIBUSB_ENDPOINT_OUT | LIBUSB_REQUEST_TYPE_CLASS | LIBUSB_RECIPIENT_INTERFACE`. -/
def CONTROL_REQUEST_TYPE_OUT : Nat := 0x00 ||| 0x20 ||| 0x01

def HID_SET_REPORT : Nat := 0x09

def HID_REPORT_TYPE_OUTPUT : Nat := 0x02

/-- `kvm_device::send_request(data, length, timeout_ms)`.  `transferRc` is the
value `libusb_control_transfer` reports.  A negative result is returned as is
after a generic diagnostic; a non-negative result different from `length`
(the C++ compares `size_t(rc) != length`) returns `-1` after a diagnostic
carrying the observed and expected counts; otherwise `0`. -/
def send_request (transferRc : Int) (interface_number : Nat) (data : List Nat) :
    Int × List Event :=
  let ev := Event.controlTransfer CONTROL_REQUEST_TYPE_OUT HID_SET_REPORT
    ((HID_REPORT_TYPE_OUTPUT <<< 8) ||| 0x00) interface_number data
  if transferRc < 0 then
    (transferRc, [ev, Event.log LogMsg.writeFailed])
  else if transferRc.toNat ≠ data.length then
    (-1, [ev, Event.log (LogMsg.shortWrite transferRc data.length)])
  else
    (0, [ev])

/-- The fixed payload of `kvm_device::initialize`. -/
def initPayload : List Nat := [0x03, 0x00, 0x00, 0x00, 0x00]

/-- The fixed payload of `kvm_device::trigger`. -/
def triggerPayload : List Nat := [0x03, 0x5c, 0x04, 0x00, 0x00]

/-- The `fail:` label of the `kvm_device` constructor: reattach the kernel
driver if this attempt detached it, close the handle (non-null on every path
that jumps here, since `libusb_open` has succeeded), release the device
reference. -/
def failCleanup (detached : Bool) (device : Nat) : List Event :=
  (if detached then [Event.attachKernelDriver] else []) ++
    [Event.closeHandle, Event.unrefDevice device]

/-- The tail of the `kvm_device` constructor from `libusb_claim_interface`
on, with `detached` the current value of `detached_kernel` and `pre` the
events already performed.  On claim failure control jumps to `fail:`.  After a
successful claim, `initialize()` runs `send_request` on `initPayload` and, if
that fails, executes `throw rc` — a C++ throw from inside the constructor
body, which bypasses the `fail:` label and never runs the destructor of the
not-yet-constructed object, so no cleanup events are emitted on that path. -/
def kvmCtorClaimed (device interface_number : Nat) (t : Transport)
    (detached : Bool) (pre : List Event) : Except Int Session × List Event :=
  if t.claimRc < 0 then
    (.error t.claimRc,
      pre ++ [Event.log LogMsg.claimFailed] ++ failCleanup detached device)
  else if (send_request t.initTransferRc interface_number initPayload).1 < 0 then
    (.error (send_request t.initTransferRc interface_number initPayload).1,
      (pre ++ [Event.claimInterface]) ++
        (send_request t.initTransferRc interface_number initPayload).2)
  else
    (.ok ⟨device, interface_number, detached⟩,
      (pre ++ [Event.claimInterface]) ++
        (send_request t.initTransferRc interface_number initPayload).2)

/-- The private `kvm_device` constructor.  The device reference was already
incremented by `find_devices`.  Open; on failure log, unref, throw.  Then
query the kernel driver; a negative answer logs and jumps to `fail:`; a
positive answer detaches (failure jumps to `fail:`, success sets
`detached_kernel`).  Then claim and run the init transfer via
`kvmCtorClaimed`. -/
def kvm_ctor (device interface_number : Nat) (t : Transport) :
    Except Int Session × List Event :=
  if t.openRc < 0 then
    (.error t.openRc, [Event.log LogMsg.openFailed, Event.unrefDevice device])
  else if t.kernelDriverActiveRc < 0 then
    (.error t.kernelDriverActiveRc,
      [Event.openDevice device, Event.log LogMsg.kernelDriverActiveFailed] ++
        failCleanup false device)
  else if t.kernelDriverActiveRc ≠ 0 then
    if t.detachRc < 0 then
      (.error t.detachRc, [Event.openDevice device] ++ failCleanup false device)
    else
      kvmCtorClaimed device interface_number t true
        [Event.openDevice device, Event.detachKernelDriver]
  else
    kvmCtorClaimed device interface_number t false [Event.openDevice device]

/-- `kvm_device::~kvm_device()`: reattach the kernel driver when
`detached_kernel` is set, close the handle, release the device reference. -/
def kvm_dtor (s : Session) : List Event :=
  (if s.detached_kernel then [Event.attachKernelDriver] else []) ++
    [Event.closeHandle, Event.unrefDevice s.device]

/-- Everything the libusb oracle decides during one `find_device` call: the
enumeration outcome, the `libusb_get_active_config_descriptor` return code and
the descriptor it fills in, and the transport codes for the constructor. -/
structure World where
  enumeration : Except Int (List DeviceEntry)
  configRc : Int
  config : ConfigDescriptor
  transport : Transport

/-- The fixed `target_interface` index used by `find_device`. -/
def target_interface : Nat := 1

/-- The block of `find_device` that runs once exactly one match was found:
read the active config descriptor (failure logs and returns null), require
exactly 2 interfaces, require interface index 1 to have exactly 1 alternate
setting (each deviation logs and returns null — note none of these early
returns release the device reference or free the config descriptor), then
extract `bInterfaceNumber`, free the descriptor and run the constructor. -/
def findDeviceTopo (w : World) (pre : List Event) (device : DeviceEntry) :
    Except Int (Option Session) × List Event :=
  if w.configRc ≠ 0 then
    (.ok none, pre ++ [Event.log (LogMsg.configDescriptorFailed w.configRc)])
  else if w.config.bNumInterfaces ≠ 2 then
    (.ok none,
      pre ++ [Event.log (LogMsg.unexpectedInterfaces w.config.bNumInterfaces)])
  else if (w.config.interface target_interface).num_altsetting ≠ 1 then
    (.ok none,
      pre ++ [Event.log
        (LogMsg.unexpectedAltsettings
          (w.config.interface target_interface).num_altsetting)])
  else
    match kvm_ctor device.id
        ((w.config.interface target_interface).altsetting 0).bInterfaceNumber
        w.transport with
    | (.error rc, es) => (.error rc, (pre ++ [Event.freeConfigDescriptor]) ++ es)
    | (.ok s, es) => (.ok (some s), (pre ++ [Event.freeConfigDescriptor]) ++ es)

/-- `kvm_device::find_device(ctx)`: locate matching devices; zero matches or
more than one match log and return null (releasing nothing); exactly one
match proceeds to the topology check and construction.  A constructor throw
propagates (`.error`). -/
def find_device (w : World) : Except Int (Option Session) × List Event :=
  match find_devices w.enumeration vendor_id product_id with
  | (.error n, es) => (.error n, es)
  | (.ok [], es) => (.ok none, es ++ [Event.log LogMsg.noDevice])
  | (.ok [device], es) => findDeviceTopo w es device
  | (.ok (_ :: _ :: _), es) =>
    (.ok none, es ++ [Event.log LogMsg.multipleDevices])

/-- `kvm_device::trigger()`: send the fixed trigger payload and return
`send_request`'s result; no member state is modified and nothing is torn
down. -/
def trigger (s : Session) (transferRc : Int) : Int × List Event :=
  send_request transferRc s.interface_number triggerPayload

/-- The oracle for one whole process run: the `libusb_init` return code plus
the `World` for the single `find_device` call. -/
structure MainWorld where
  initRc : Int
  world : World

/-- `main`: failed `libusb_init` logs and returns 1 immediately.  Otherwise
run `find_device`; a throw is caught (`catch (int libusb_error)`), logged when
non-zero, and sets `rc = 1`; a null result sets `rc = 1`; a session triggers
once — the call's result is discarded — and is then destroyed when the
`unique_ptr` leaves scope, leaving `rc` at 0.  Finally `libusb_exit` runs and
`rc` is the process exit code. -/
def main_model (mw : MainWorld) : Int × List Event :=
  if mw.initRc ≠ 0 then
    (1, [Event.log LogMsg.libusbInitFailed])
  else
    match find_device mw.world with
    | (.error e, es) =>
      (1, es ++ (if e ≠ 0 then [Event.log (LogMsg.libusbError e)] else []) ++
        [Event.libusbExit])
    | (.ok none, es) => (1, es ++ [Event.libusbExit])
    | (.ok (some s), es) =>
      (0, es ++ (trigger s mw.world.transport.triggerTransferRc).2 ++
        kvm_dtor s ++ [Event.libusbExit])

/-- Count the events satisfying `p`. -/
def countIf (p : Event → Bool) (es : List Event) : Nat := (es.filter p).length

def isRef : Event → Bool
  | .refDevice _ => true
  | _ => false

def isUnref : Event → Bool
  | .unrefDevice _ => true
  | _ => false

def isOpen : Event → Bool
  | .openDevice _ => true
  | _ => false

def isClose : Event → Bool
  | .closeHandle => true
  | _ => false

def isDetach : Event → Bool
  | .detachKernelDriver => true
  | _ => false

def isAttach : Event → Bool
  | .attachKernelDriver => true
  | _ => false

def isClaim : Event → Bool
  | .claimInterface => true
  | _ => false

/-- Does a diagnostic message carry the observed vs. expected byte counts?
Only the short-write message does. -/
def msgHasCounts : LogMsg → Bool
  | .shortWrite _ _ => true
  | _ => false

/-! ## Concrete worlds used by the closed theorems -/

/-- A device matching the KVM identifiers. -/
def d1 : DeviceEntry := ⟨1, 0, 0x2101, 0x1406⟩

/-- A second device matching the KVM identifiers. -/
def d2 : DeviceEntry := ⟨2, 0, 0x2101, 0x1406⟩

/-- The expected topology: 2 interfaces, 1 altsetting, interface number 1. -/
def goodConfig : ConfigDescriptor := ⟨2, fun _ => ⟨1, fun _ => ⟨1⟩⟩⟩

/-- A config descriptor with 3 interfaces: a topology mismatch. -/
def badIfConfig : ConfigDescriptor := ⟨3, fun _ => ⟨1, fun _ => ⟨1⟩⟩⟩

/-- A transport where every call succeeds and the kernel driver is active
(both control transfers report the full 5 bytes). -/
def okTransport : Transport := ⟨0, 1, 0, 0, 5, 5⟩

/-- Two matching devices attached: the ambiguous-match path. -/
def ambiguousWorld : World := ⟨.ok [d1, d2], 0, goodConfig, okTransport⟩

/-- One matching device with a wrong interface count: topology mismatch. -/
def topoMismatchWorld : World := ⟨.ok [d1], 0, badIfConfig, okTransport⟩

/-- One matching device, good topology, kernel driver active, but the init
control transfer reports a negative count. -/
def initFailWorld : World := ⟨.ok [d1], 0, goodConfig, ⟨0, 1, 0, 0, -5, 5⟩⟩

/-- A full run where acquisition succeeds but the trigger transfer fails. -/
def triggerFailRun : MainWorld := ⟨0, ⟨.ok [d1], 0, goodConfig, ⟨0, 0, 0, 0, 5, -3⟩⟩⟩

/-! ## Helper lemmas -/

/-- The scan loop returns exactly the matching devices in enumeration order,
and performs exactly one reference increment per match, in the same order. -/
theorem scanDevices_eq (v p : Nat) (l : List DeviceEntry) :
    scanDevices v p l =
      (l.filter (matchesIds v p),
        (l.filter (matchesIds v p)).map (fun d => Event.refDevice d.id)) := by
  induction l with
  | nil => rfl
  | cons d rest ih =>
    by_cases h : matchesIds v p d
    · simp [scanDevices, ih, List.filter_cons, h]
    · simp [scanDevices, ih, List.filter_cons, h]

/-- Characterization of a successful `kvm_device` construction: the session
records the device and interface it was built over; the detached flag is set
exactly when the kernel-driver query reported the driver active (a positive
code, the query having succeeded); and when it is set, the detach call
succeeded. -/
theorem kvm_ctor_ok (device ifn : Nat) (t : Transport) (s : Session)
    (h : (kvm_ctor device ifn t).1 = .ok s) :
    s.device = device ∧ s.interface_number = ifn ∧
      (s.detached_kernel = true ↔ 0 < t.kernelDriverActiveRc) ∧
      (s.detached_kernel = true → 0 ≤ t.detachRc) := by
  unfold kvm_ctor kvmCtorClaimed at h
  split at h
  · simp at h
  · split at h
    · simp at h
    · split at h
      · split at h
        · simp at h
        · split at h
          · simp at h
          · split at h
            · simp at h
            · rename_i hopen hkda hne hdet hclaim hinit
              simp only [Except.ok.injEq] at h
              subst h
              have h1 : 0 < t.kernelDriverActiveRc := by omega
              simp [h1]
              omega
      · split at h
        · simp at h
        · split at h
          · simp at h
          · rename_i hopen hkda hne hclaim hinit
            simp only [Except.ok.injEq] at h
            subst h
            have h0 : t.kernelDriverActiveRc = 0 := by omega
            simp [h0]

/-- The scan of a successful enumeration: matches are the filtered list, the
events are one `refDevice` per match (enumeration order) then the snapshot
release. -/
theorem find_devices_ok (devs : List DeviceEntry) (v p : Nat) :
    find_devices (.ok devs) v p =
      (.ok (devs.filter (matchesIds v p)),
        (devs.filter (matchesIds v p)).map (fun d => Event.refDevice d.id) ++
          [Event.freeDeviceList]) := by
  simp [find_devices, scanDevices_eq]

/-- A failed enumeration propagates out of `find_device` untouched. -/
theorem find_device_enum_error (w : World) (n : Int)
    (henum : w.enumeration = .error n) :
    find_device w = (.error n, []) := by
  unfold find_device
  rw [henum]
  rfl

/-- Zero matches: `find_device` logs and returns null. -/
theorem find_device_no_match (w : World) (devs : List DeviceEntry)
    (henum : w.enumeration = .ok devs)
    (hf : devs.filter (matchesIds vendor_id product_id) = []) :
    find_device w =
      (.ok none, [Event.freeDeviceList, Event.log LogMsg.noDevice]) := by
  unfold find_device
  rw [henum, find_devices_ok, hf]
  rfl

/-- Two or more matches: `find_device` logs and returns null, releasing
nothing beyond the enumeration snapshot. -/
theorem find_device_multi_match (w : World) (devs : List DeviceEntry)
    (a b : DeviceEntry) (l : List DeviceEntry)
    (henum : w.enumeration = .ok devs)
    (hf : devs.filter (matchesIds vendor_id product_id) = a :: b :: l) :
    find_device w =
      (.ok none,
        ((a :: b :: l).map (fun d => Event.refDevice d.id) ++
            [Event.freeDeviceList]) ++ [Event.log LogMsg.multipleDevices]) := by
  unfold find_device
  rw [henum, find_devices_ok, hf]

/-- Exactly one match: `find_device` proceeds to the topology block over it. -/
theorem find_device_single (w : World) (devs : List DeviceEntry)
    (d : DeviceEntry) (henum : w.enumeration = .ok devs)
    (hf : devs.filter (matchesIds vendor_id product_id) = [d]) :
    find_device w =
      findDeviceTopo w [Event.refDevice d.id, Event.freeDeviceList] d := by
  unfold find_device
  rw [henum, find_devices_ok, hf]
  rfl

/-- Did the `find_device` call produce a session? -/
def sessionAcquired (w : World) : Bool :=
  match (find_device w).1 with
  | .ok (some _) => true
  | _ => false

/-! ## Claims -/

/-- C1: the claim states that on every abort path of an acquisition attempt
the rollback releases exactly what was acquired.  The code violates this: on
the ambiguous-match path the references taken on both matches during
enumeration are never released (2 acquisitions, 0 releases), and on the
topology-mismatch path the single match's reference is likewise leaked
(1 acquisition, 0 releases).  This theorem evaluates the model at those two
failing inputs. -/
theorem C1_rollback_asymmetry :
    (find_device ambiguousWorld).1 = .ok none ∧
      countIf isRef (find_device ambiguousWorld).2 = 2 ∧
      countIf isUnref (find_device ambiguousWorld).2 = 0 ∧
      (find_device topoMismatchWorld).1 = .ok none ∧
      countIf isRef (find_device topoMismatchWorld).2 = 1 ∧
      countIf isUnref (find_device topoMismatchWorld).2 = 0 :=
  ⟨rfl, rfl, rfl, rfl, rfl, rfl⟩

/-- C2: the claim states that when the initialization control transfer fails
after open, detach and claim succeeded, construction fails with full cleanup
(reattach, close, release).  The code violates this: `initialize()` throws
from inside the constructor body, which bypasses the `fail:` cleanup label
and (since the object never finishes construction) never runs the destructor.
At a world where everything succeeds except the init transfer, the attempt
takes the device reference, opens, detaches and claims, then propagates the
failure with zero releases, closes or reattachments. -/
theorem C2_no_cleanup_on_init_transfer_failure :
    (find_device initFailWorld).1 = .error (-5) ∧
      countIf isRef (find_device initFailWorld).2 = 1 ∧
      countIf isUnref (find_device initFailWorld).2 = 0 ∧
      countIf isOpen (find_device initFailWorld).2 = 1 ∧
      countIf isClose (find_device initFailWorld).2 = 0 ∧
      countIf isDetach (find_device initFailWorld).2 = 1 ∧
      countIf isAttach (find_device initFailWorld).2 = 0 :=
  ⟨rfl, rfl, rfl, rfl, rfl, rfl, rfl⟩

/-- C3 counterexample: the claim states every failure, including a failed
trigger transfer on an acquired session, exits non-zero.  But `main` discards
`kvm->trigger()`'s result: at a run where acquisition succeeds and the
trigger transfer reports a negative count, the trigger fails (and logs) yet
the process exit code is 0. -/
theorem C3_trigger_failure_exits_zero :
    (find_device triggerFailRun.world).1 = .ok (some ⟨1, 1, false⟩) ∧
      triggerFailRun.world.transport.triggerTransferRc < 0 ∧
      (trigger ⟨1, 1, false⟩ triggerFailRun.world.transport.triggerTransferRc).1 < 0 ∧
      Event.log LogMsg.writeFailed ∈ (main_model triggerFailRun).2 ∧
      (main_model triggerFailRun).1 = 0 :=
  ⟨rfl, by decide, by decide, by decide, rfl⟩

/-- C3 amended: the process exit code is 0 exactly when libusb initialized
and a session was acquired — the result of the trigger transfer does not
influence the exit code (though its failure still logs a diagnostic); every
run exits 0 or 1, and 1 is returned when no session could be acquired (no
device, ambiguous devices, topology mismatch, acquisition failure) or when
subsystem initialization fails. -/
theorem C3_exit_code_amended (mw : MainWorld) :
    ((main_model mw).1 = 0 ↔ mw.initRc = 0 ∧ sessionAcquired mw.world = true) ∧
      ((main_model mw).1 = 0 ∨ (main_model mw).1 = 1) := by
  unfold main_model sessionAcquired
  by_cases hinit : mw.initRc = 0
  · rcases hfd : find_device mw.world with ⟨r, es⟩
    cases r with
    | error e => simp [hinit, hfd]
    | ok o => cases o <;> simp [hinit, hfd]
  · simp [hinit]

/-- C4 counterexample: the claim states a negative transport result is logged
with the observed vs. expected byte counts.  In the code a negative result
logs only the generic write-failure message, which carries no counts (the
counts appear on the short-write message instead). -/
theorem C4_negative_result_logged_without_counts :
    send_request (-7) 1 initPayload =
      (-7, [Event.controlTransfer CONTROL_REQUEST_TYPE_OUT HID_SET_REPORT
          ((HID_REPORT_TYPE_OUTPUT <<< 8) ||| 0x00) 1 initPayload,
        Event.log LogMsg.writeFailed]) ∧
      msgHasCounts LogMsg.writeFailed = false :=
  ⟨rfl, rfl⟩

/-- C4 amended: `send_request` returns 0 exactly when the transport reports a
byte count equal to the payload length (so 4 or 6 for a 5-byte payload both
fail); a negative result is returned as is and logs only the generic message,
which carries no byte counts; a non-negative short (or long) result returns
-1 and logs the message carrying the observed vs. expected counts. -/
theorem C4_send_request_exactness (rc : Int) (ifn : Nat) (data : List Nat) :
    ((send_request rc ifn data).1 = 0 ↔ rc = (data.length : Int)) ∧
      (rc < 0 →
        send_request rc ifn data =
          (rc, [Event.controlTransfer CONTROL_REQUEST_TYPE_OUT HID_SET_REPORT
              ((HID_REPORT_TYPE_OUTPUT <<< 8) ||| 0x00) ifn data,
            Event.log LogMsg.writeFailed]) ∧
        ∀ m, Event.log m ∈ (send_request rc ifn data).2 → msgHasCounts m = false) ∧
      (0 ≤ rc → rc ≠ (data.length : Int) →
        send_request rc ifn data =
          (-1, [Event.controlTransfer CONTROL_REQUEST_TYPE_OUT HID_SET_REPORT
              ((HID_REPORT_TYPE_OUTPUT <<< 8) ||| 0x00) ifn data,
            Event.log (LogMsg.shortWrite rc data.length)])) := by
  refine ⟨?_, ?_, ?_⟩
  · constructor
    · intro h
      unfold send_request at h
      split at h
      · simp at h
        omega
      · split at h
        · simp at h
        · rename_i h1 h2
          simp only [ne_eq, not_not] at h2
          omega
    · intro h
      have h0 : ¬rc < 0 := by omega
      have h2 : ¬rc.toNat ≠ data.length := by omega
      unfold send_request
      simp [h0, h2]
  · intro hneg
    constructor
    · unfold send_request
      simp [hneg]
    · intro m hm
      unfold send_request at hm
      simp only [if_pos hneg, List.mem_cons, List.mem_singleton] at hm
      rcases hm with hm | hm | hm
      · exact absurd hm (by simp)
      · simp only [Event.log.injEq] at hm
        subst hm
        rfl
      · exact absurd hm (by simp)
  · intro hge hne
    have h1 : ¬rc < 0 := by omega
    have h2 : rc.toNat ≠ data.length := by omega
    unfold send_request
    simp [h1, h2]

/-- Witness for the C4 amended theorem at concrete inputs: a negative
transport result of -7 and a short write of 4 for the 5-byte payloads. -/
theorem C4_send_request_exactness_witness :
    send_request (-7) 3 initPayload =
      (-7, [Event.controlTransfer CONTROL_REQUEST_TYPE_OUT HID_SET_REPORT
          ((HID_REPORT_TYPE_OUTPUT <<< 8) ||| 0x00) 3 initPayload,
        Event.log LogMsg.writeFailed]) ∧
      send_request 4 3 triggerPayload =
        (-1, [Event.controlTransfer CONTROL_REQUEST_TYPE_OUT HID_SET_REPORT
            ((HID_REPORT_TYPE_OUTPUT <<< 8) ||| 0x00) 3 triggerPayload,
          Event.log (LogMsg.shortWrite 4 triggerPayload.length)]) :=
  ⟨((C4_send_request_exactness (-7) 3 initPayload).2.1 (by decide)).1,
    (C4_send_request_exactness 4 3 triggerPayload).2.2 (by decide) (by decide)⟩

/-- C5: for every successfully constructed session the detached-kernel flag
is true exactly when a kernel driver was actively bound to the target
interface at acquisition time (a positive kernel-driver query result) and was
detached by this attempt (the detach call succeeded); destruction reattaches
exactly once when the flag is set, never when it is clear, followed by the
handle close and the device-reference release. -/
theorem C5_detached_flag_iff_reattach_once (device ifn : Nat) (t : Transport)
    (s : Session) (h : (kvm_ctor device ifn t).1 = .ok s) :
    (s.detached_kernel = true ↔
        0 < t.kernelDriverActiveRc ∧ 0 ≤ t.detachRc) ∧
      countIf isAttach (kvm_dtor s) = (if s.detached_kernel then 1 else 0) ∧
      kvm_dtor s =
        (if s.detached_kernel then [Event.attachKernelDriver] else []) ++
          [Event.closeHandle, Event.unrefDevice s.device] := by
  obtain ⟨-, -, hflag, hdet⟩ := kvm_ctor_ok device ifn t s h
  refine ⟨⟨fun hf => ⟨hflag.mp hf, hdet hf⟩, fun hc => hflag.mpr hc.1⟩, ?_, rfl⟩
  cases hdk : s.detached_kernel <;>
    simp [kvm_dtor, countIf, isAttach, hdk]

/-- Witness for C5: a run where every libusb call succeeds and the kernel
driver is active produces the session with the flag set, and its destruction
reattaches exactly once. -/
theorem C5_witness :
    (kvm_ctor 1 1 okTransport).1 = .ok ⟨1, 1, true⟩ ∧
      (((⟨1, 1, true⟩ : Session).detached_kernel = true ↔
          0 < okTransport.kernelDriverActiveRc ∧ 0 ≤ okTransport.detachRc) ∧
        countIf isAttach (kvm_dtor ⟨1, 1, true⟩) =
          (if (⟨1, 1, true⟩ : Session).detached_kernel then 1 else 0) ∧
        kvm_dtor ⟨1, 1, true⟩ =
          (if (⟨1, 1, true⟩ : Session).detached_kernel then
            [Event.attachKernelDriver] else []) ++
            [Event.closeHandle,
              Event.unrefDevice (⟨1, 1, true⟩ : Session).device]) :=
  ⟨rfl, C5_detached_flag_iff_reattach_once 1 1 okTransport ⟨1, 1, true⟩ rfl⟩

/-- C6: a single matching device whose active configuration does not have
exactly 2 interfaces, or whose interface at index 1 does not have exactly 1
alternate setting, aborts with none before any open or claim is performed;
and when construction does succeed, the session's interface number is the
`bInterfaceNumber` read from that alternate setting, not the index 1. -/
theorem C6_topology_gate (w : World) :
    (∀ devs d, w.enumeration = .ok devs →
      devs.filter (matchesIds vendor_id product_id) = [d] →
      w.configRc = 0 →
      (w.config.bNumInterfaces ≠ 2 ∨
        (w.config.interface target_interface).num_altsetting ≠ 1) →
      (find_device w).1 = .ok none ∧
        ∀ e ∈ (find_device w).2, isOpen e = false ∧ isClaim e = false) ∧
    (∀ s, (find_device w).1 = .ok (some s) →
      s.interface_number =
        ((w.config.interface target_interface).altsetting 0).bInterfaceNumber) := by
  constructor
  · intro devs d henum hf hc hbad
    rw [find_device_single w devs d henum hf]
    unfold findDeviceTopo
    rw [if_neg (by simp [hc])]
    rcases hbad with h2 | h1
    · rw [if_pos h2]
      refine ⟨rfl, ?_⟩
      intro e he
      simp only [List.mem_append, List.mem_cons, List.not_mem_nil,
        or_false] at he
      rcases he with (rfl | rfl) | rfl <;> exact ⟨rfl, rfl⟩
    · by_cases h2 : w.config.bNumInterfaces = 2
      · rw [if_neg (by simp [h2]), if_pos h1]
        refine ⟨rfl, ?_⟩
        intro e he
        simp only [List.mem_append, List.mem_cons, List.not_mem_nil,
          or_false] at he
        rcases he with (rfl | rfl) | rfl <;> exact ⟨rfl, rfl⟩
      · rw [if_pos h2]
        refine ⟨rfl, ?_⟩
        intro e he
        simp only [List.mem_append, List.mem_cons, List.not_mem_nil,
          or_false] at he
        rcases he with (rfl | rfl) | rfl <;> exact ⟨rfl, rfl⟩
  · intro s hs
    cases henum : w.enumeration with
    | error n =>
      rw [find_device_enum_error w n henum] at hs
      simp at hs
    | ok devs =>
      cases hf : devs.filter (matchesIds vendor_id product_id) with
      | nil =>
        rw [find_device_no_match w devs henum hf] at hs
        simp at hs
      | cons a rest =>
        cases rest with
        | nil =>
          rw [find_device_single w devs a henum hf] at hs
          unfold findDeviceTopo at hs
          split at hs
          · simp at hs
          · split at hs
            · simp at hs
            · split at hs
              · simp at hs
              · split at hs
                · simp at hs
                · rename_i s' es heq
                  simp only [Except.ok.injEq, Option.some.injEq] at hs
                  subst hs
                  have hc : (kvm_ctor a.id
                      ((w.config.interface target_interface).altsetting 0).bInterfaceNumber
                      w.transport).1 = .ok s' := by rw [heq]
                  exact (kvm_ctor_ok _ _ _ _ hc).2.1
        | cons b l =>
          rw [find_device_multi_match w devs a b l henum hf] at hs
          simp at hs

/-- Witness for C6: one matching device whose configuration exposes 3
interfaces is turned away with no open and no claim. -/
theorem C6_witness :
    ((find_device topoMismatchWorld).1 = .ok none ∧
      ∀ e ∈ (find_device topoMismatchWorld).2,
        isOpen e = false ∧ isClaim e = false) ∧
      (find_device initFailWorld).1 = .error (-5) :=
  ⟨(C6_topology_gate topoMismatchWorld).1 [d1] d1 rfl (by decide) rfl
      (Or.inl (by decide)),
    rfl⟩

/-- C7: whenever the enumeration succeeds and the number of devices matching
vendor 0x2101 / product 0x1406 is not exactly one — zero matches, or two or
more — acquisition returns no session; no match is ever picked. -/
theorem C7_ambiguity_refusal (w : World) (devs : List DeviceEntry)
    (henum : w.enumeration = .ok devs)
    (hn : (devs.filter (matchesIds vendor_id product_id)).length ≠ 1) :
    (find_device w).1 = .ok none := by
  cases hf : devs.filter (matchesIds vendor_id product_id) with
  | nil => rw [find_device_no_match w devs henum hf]
  | cons a rest =>
    cases rest with
    | nil =>
      rw [hf] at hn
      simp at hn
    | cons b l => rw [find_device_multi_match w devs a b l henum hf]

/-- Witness for C7: two attached matching devices are refused. -/
theorem C7_witness : (find_device ambiguousWorld).1 = .ok none :=
  C7_ambiguity_refusal ambiguousWorld [d1, d2] rfl (by decide)

/-- C8: `find_devices` returns exactly the attached devices whose descriptor
vendor/product identifiers match, in enumeration order, performing one
reference increment per returned device (ownership to the caller) and then
releasing the enumeration snapshot; it returns the empty list when nothing
matches; and when the enumeration reports a negative count it fails with that
count, having performed no reference increment at all (no partial result). -/
theorem C8_find_devices_spec (v p : Nat) :
    (∀ n : Int, find_devices (.error n) v p = (.error n, [])) ∧
      ∀ devs : List DeviceEntry,
        find_devices (.ok devs) v p =
          (.ok (devs.filter (matchesIds v p)),
            (devs.filter (matchesIds v p)).map
                (fun d => Event.refDevice d.id) ++
              [Event.freeDeviceList]) :=
  ⟨fun _ => rfl, fun devs => find_devices_ok devs v p⟩

/-- C9: `trigger()` performs exactly one HID Set-Report output control
transfer (request type `0x21`, request `0x09`, wValue `0x0200` for output
report id 0) carrying the fixed payload `03 5C 04 00 00` on the session's
interface; its result is 0 exactly when the transport reports 5 bytes, is
negative on any failure, and the session is not torn down: the trigger emits
no close, no device release and no kernel-driver reattach, and the session
value itself is untouched. -/
theorem C9_trigger_payload (s : Session) (rc : Int) :
    (trigger s rc).2.head? =
      some (Event.controlTransfer CONTROL_REQUEST_TYPE_OUT HID_SET_REPORT
        ((HID_REPORT_TYPE_OUTPUT <<< 8) ||| 0x00) s.interface_number
        [0x03, 0x5c, 0x04, 0x00, 0x00]) ∧
      ((trigger s rc).1 = 0 ↔ rc = 5) ∧
      (rc ≠ 5 → (trigger s rc).1 < 0) ∧
      ∀ e ∈ (trigger s rc).2,
        isUnref e = false ∧ isClose e = false ∧ isAttach e = false := by
  unfold trigger send_request triggerPayload
  split
  · rename_i hneg
    refine ⟨rfl, ⟨fun h => ?_, fun h => ?_⟩, fun _ => hneg, fun e he => ?_⟩
    · simp at h
      omega
    · exfalso
      omega
    · simp only [List.mem_cons, List.not_mem_nil, or_false] at he
      rcases he with rfl | rfl <;> exact ⟨rfl, rfl, rfl⟩
  · split
    · rename_i hge hne
      simp only [List.length_cons, List.length_nil] at hne
      refine ⟨rfl, ⟨fun h => ?_, fun h => ?_⟩, fun _ => by norm_num,
        fun e he => ?_⟩
      · simp at h
      · exfalso
        omega
      · simp only [List.mem_cons, List.not_mem_nil, or_false] at he
        rcases he with rfl | rfl <;> exact ⟨rfl, rfl, rfl⟩
    · rename_i hge heq
      simp only [ne_eq, not_not, List.length_cons, List.length_nil] at heq
      refine ⟨rfl, ⟨fun _ => by omega, fun _ => rfl⟩, fun hne5 => ?_,
        fun e he => ?_⟩
      · exfalso
        omega
      · simp only [List.mem_cons, List.not_mem_nil, or_false] at he
        rcases he with rfl
        exact ⟨rfl, rfl, rfl⟩

/-- Witness for C9: a trigger whose transfer reports 4 of 5 bytes fails
without emitting any teardown event. -/
theorem C9_witness :
    ((trigger ⟨1, 1, false⟩ 4).1 = 0 ↔ (4 : Int) = 5) ∧
      (trigger ⟨1, 1, false⟩ 4).1 < 0 ∧
      isClose (Event.log (LogMsg.shortWrite 4 5)) = false :=
  ⟨(C9_trigger_payload ⟨1, 1, false⟩ 4).2.1,
    (C9_trigger_payload ⟨1, 1, false⟩ 4).2.2.1 (by decide),
    ((C9_trigger_payload ⟨1, 1, false⟩ 4).2.2.2
        (Event.log (LogMsg.shortWrite 4 5)) (by decide)).2.1⟩

/-- C10: `find_devices` never consults the result of the per-device
descriptor query: a device whose descriptor query failed (negative `descRc`)
produces exactly the same events as one whose query succeeded, and its
membership in the returned set is decided purely by whatever vendor/product
values the failed query left in the descriptor structure. -/
theorem C10_descriptor_rc_ignored (d : DeviceEntry) (rc : Int) (v p : Nat)
    (_hrc : rc < 0) :
    (find_devices (.ok [⟨d.id, rc, d.idVendor, d.idProduct⟩]) v p).2 =
        (find_devices (.ok [d]) v p).2 ∧
      ((find_devices (.ok [⟨d.id, rc, d.idVendor, d.idProduct⟩]) v p).1 =
          .ok [(⟨d.id, rc, d.idVendor, d.idProduct⟩ : DeviceEntry)] ↔
        d.idVendor = v ∧ d.idProduct = p) := by
  have hm : matchesIds v p ⟨d.id, rc, d.idVendor, d.idProduct⟩ =
      matchesIds v p d := rfl
  rw [find_devices_ok, find_devices_ok]
  by_cases h : matchesIds v p d
  · simp only [List.filter_cons, List.filter_nil, hm, h, if_pos]
    refine ⟨rfl, ?_⟩
    simp only [matchesIds, Bool.and_eq_true, beq_iff_eq] at h
    simp [h]
  · simp only [List.filter_cons, List.filter_nil, hm, h, if_neg,
      Bool.false_eq_true, Bool.not_eq_true]
    refine ⟨rfl, ?_⟩
    simp only [matchesIds, Bool.and_eq_true, beq_iff_eq] at h
    constructor
    · intro habs
      exact absurd habs (by simp)
    · intro hvp
      exact absurd hvp h

/-- Witness for C10: a matching device whose descriptor query failed with -1
is still returned, with the same events as a successful query. -/
theorem C10_witness :
    (find_devices (.ok [⟨7, -1, 0x2101, 0x1406⟩]) vendor_id product_id).2 =
        (find_devices (.ok [(⟨7, 3, 0x2101, 0x1406⟩ : DeviceEntry)])
          vendor_id product_id).2 ∧
      ((find_devices (.ok [⟨7, -1, 0x2101, 0x1406⟩]) vendor_id product_id).1 =
          .ok [(⟨7, -1, 0x2101, 0x1406⟩ : DeviceEntry)] ↔
        (7 : Nat) = 7 ∧ (0x2101 : Nat) = vendor_id ∧
          (0x1406 : Nat) = product_id) := by
  have h := C10_descriptor_rc_ignored ⟨7, 3, 0x2101, 0x1406⟩ (-1)
    vendor_id product_id (by decide)
  exact ⟨h.1, by simp [h.2]⟩

end SiigSwitch
